import Mathlib

/-
  Verification development for the sellist-server AI listing pipeline.

  Shallow embedding of the JSON sanitizer, truncation recovery, retry loops,
  payload normalizer, item-specifics cleanup and pipeline phase sequencing
  found in:
    src/api/ai/services/ai.agentic.js
    src/api/ai/services/ai.agentic2.js
    src/api/ai/services/gemini.service.js
    src/api/ai/services/gemini2.service.js

  Text is modelled as `List Char`.  JavaScript runtime values (the result of
  JSON.parse plus `undefined`) are modelled by the inductive type `J`.
-/

set_option maxRecDepth 4000

-- ===========================================================================
-- Character helpers
-- ===========================================================================

/-- The backtick character (code 96), used by markdown code fences. -/
def tick : Char := Char.ofNat 96

/-- The double-quote character (code 34). -/
def dq : Char := Char.ofNat 34

/-- The backslash character (code 92). -/
def bslash : Char := Char.ofNat 92

/-- JavaScript whitespace as used by `String.prototype.trim` and `\s`
(ASCII whitespace plus NBSP and BOM; sufficient for the texts involved). -/
def isJsWS (c : Char) : Bool :=
  c = ' ' || c = '\t' || c = '\n' || c = '\r' ||
  c = Char.ofNat 11 || c = Char.ofNat 12 ||
  c = Char.ofNat 160 || c = Char.ofNat 65279

/-- Convert a Lean string literal to the `List Char` text model. -/
def strL (s : String) : List Char := s.data

/-- Lower-casing, models `String.prototype.toLowerCase` for the ASCII
message strings the error classifiers inspect. -/
def lowerL (s : List Char) : List Char := s.map Char.toLower

/-- Models `containsSub needle haystack` models `String.prototype.includes`. -/
def containsSub (needle haystack : List Char) : Bool :=
  haystack.tails.any (fun t => needle.isPrefixOf t)

/-- Models `includes hay sub`: JS `hay.includes(sub)` on Lean string literals. -/
def includes (hay sub : String) : Bool := containsSub sub.data hay.data

-- ===========================================================================
-- JavaScript values (JSON.parse results plus `undefined`)
-- ===========================================================================

/-- A JavaScript value as produced by `JSON.parse`, together with
`undefined` (the result of reading an absent property).  Numbers are kept
exactly as `m * 10 ^ e` (mantissa and decimal exponent). -/
inductive J : Type where
  | undefined : J
  | null : J
  | bool (b : Bool) : J
  | num (m : Int) (e : Int) : J
  | str (s : String) : J
  | arr (xs : List J) : J
  | obj (kvs : List (String × J)) : J

/-- JavaScript truthiness.  `0` is falsy for every decimal exponent. -/
def truthy : J → Bool
  | .undefined => false
  | .null => false
  | .bool b => b
  | .num m _ => m ≠ 0
  | .str s => s ≠ ""
  | .arr _ => true
  | .obj _ => true

/-- Property read `v[k]`; absent keys and non-objects give `undefined`
(also covers the optional-chaining reads `a?.b` used by the sources,
whose base is never a throwing access in the modelled code paths).
Duplicate keys follow JS object semantics: the last occurrence wins. -/
def gf (v : J) (k : String) : J :=
  match v with
  | .obj kvs =>
    match kvs.reverse.find? (fun kv => kv.1 = k) with
    | some kv => kv.2
    | none => .undefined
  | _ => .undefined

/-- Property write `v[k] = x`: updates an existing key in place, appends a
new key (JS property insertion order).  Identity on non-objects. -/
def setProp (v : J) (k : String) (x : J) : J :=
  match v with
  | .obj kvs =>
    if kvs.any (fun kv => kv.1 = k) then
      .obj (kvs.map (fun kv => if kv.1 = k then (kv.1, x) else kv))
    else
      .obj (kvs ++ [(k, x)])
  | _ => v

/-- Models `delete v[k]` on object values. -/
def delProp (v : J) (k : String) : J :=
  match v with
  | .obj kvs => .obj (kvs.filter (fun kv => ¬ kv.1 = k))
  | _ => v

/-- JavaScript `a || b`. -/
def jsOr (a b : J) : J := if truthy a then a else b

/-- JavaScript `a ?? b`. -/
def jsNN (a b : J) : J :=
  match a with
  | .undefined => b
  | .null => b
  | _ => a

/-- Top-level key list of an object value. -/
def topKeys : J → List String
  | .obj kvs => kvs.map Prod.fst
  | _ => []

-- ===========================================================================
-- ResponseSanitizer (ai.agentic.js:520-548, ai.agentic2.js:633-659,
--                    gemini.service.js:107-132)
-- ===========================================================================

/-- Models `text.trim()`. -/
def trimL (s : List Char) : List Char :=
  ((s.dropWhile isJsWS).reverse.dropWhile isJsWS).reverse

/-- Models `cleaned.replace(/^```[a-zA-Z]*\s*/, "")`: a leading fence token with an
optional language tag, then whitespace, is removed. -/
def stripLeadFence (s : List Char) : List Char :=
  if s.take 3 = [tick, tick, tick] then
    (((s.drop 3).dropWhile Char.isAlpha).dropWhile isJsWS)
  else s

/-- Models `cleaned.replace(/\s*```$/, "")`: a trailing fence token, with the
whitespace run before it, is removed. -/
def stripTrailFence (s : List Char) : List Char :=
  if s.reverse.take 3 = [tick, tick, tick] then
    (((s.reverse.drop 3).dropWhile isJsWS)).reverse
  else s

/-- Models `cleaned.replace(/```/g, "")`: every (leftmost, non-overlapping) run of
three backticks is removed. -/
def removeTicks : List Char → List Char
  | [] => []
  | [c] => [c]
  | [c, d] => [c, d]
  | c :: d :: e :: r =>
    if c = tick ∧ d = tick ∧ e = tick then removeTicks r
    else c :: removeTicks (d :: e :: r)

/-- The fence-stripping pipeline shared verbatim by the three sanitizer
implementations: trim, strip leading fence, strip trailing fence, remove
remaining fences, trim. -/
def cleanCore (s : List Char) : List Char :=
  trimL (removeTicks (stripTrailFence (stripLeadFence (trimL s))))

/-- Models `cleaned.indexOf(ch)` as an `Option Nat`. -/
def firstIdxOf (ch : Char) : List Char → Option Nat
  | [] => none
  | c :: r => if c = ch then some 0 else (firstIdxOf ch r).map (· + 1)

/-- Models `cleaned.lastIndexOf(ch)` as an `Option Nat`. -/
def lastIdxOf (ch : Char) (s : List Char) : Option Nat :=
  (firstIdxOf ch s.reverse).map (fun j => s.length - 1 - j)

/-- The scanning loop of `_attemptJsonRecovery` (ai.agentic.js:551-601):
walks the text tracking string/escape state and counts unmatched braces
and brackets outside string literals.  Returns
(braceCount, bracketCount, inString). -/
def recScan : List Char → Int → Int → Bool → Bool → Int × Int × Bool
  | [], b, k, ins, _ => (b, k, ins)
  | ch :: rest, b, k, ins, esc =>
    if esc then recScan rest b k ins false
    else if ch = bslash then recScan rest b k ins true
    else if ch = dq then recScan rest b k (!ins) false
    else if ins then recScan rest b k ins false
    else if ch = '{' then recScan rest (b + 1) k ins false
    else if ch = '}' then recScan rest (b - 1) k ins false
    else if ch = '[' then recScan rest b (k + 1) ins false
    else if ch = ']' then recScan rest b (k - 1) ins false
    else recScan rest b k ins false

/-- Models `_attemptJsonRecovery`: closes an unterminated string, then appends all
pending `]` before all pending `}` (the source's structurally naive but
deliberate heuristic). -/
def recoverJson (s : List Char) : List Char :=
  let st := recScan s 0 0 false false
  let s1 := if st.2.2 then s ++ [dq] else s
  (s1 ++ List.replicate st.2.1.toNat ']') ++ List.replicate st.1.toNat '}'

/-- The sanitizer error of `_cleanJson`
("No JSON object found in AI response"). -/
inductive SanErr : Type where
  | noJsonFound : SanErr
deriving DecidableEq

/-- Which branch of `_cleanJson` fired. -/
inductive SanRoute : Type where
  | emptyInput : SanRoute
  | sliced : SanRoute
  | recovered : SanRoute
  | noJson : SanRoute
deriving DecidableEq

/-- Models `AIAgentic._cleanJson` (identical in ai.agentic.js:520-548 and
ai.agentic2.js:633-659), instrumented with the branch taken.  A falsy
input (`""`) returns `""`; otherwise the fence-stripped text is sliced to
its first-`{` .. last-`}` span when the last `}` is after the first `{`,
repaired by `_attemptJsonRecovery` when a `{` exists but no later `}`,
and rejected with the no-JSON error when no `{` exists. -/
def cleanRouteA (s : List Char) : SanRoute × Except SanErr (List Char) :=
  if s = [] then (.emptyInput, .ok [])
  else
    match firstIdxOf '{' (cleanCore s), lastIdxOf '}' (cleanCore s) with
    | some f, some l =>
      if f < l then
        (.sliced, .ok (trimL (((cleanCore s).drop f).take (l + 1 - f))))
      else (.recovered, .ok (trimL (recoverJson ((cleanCore s).drop f))))
    | some f, none => (.recovered, .ok (trimL (recoverJson ((cleanCore s).drop f))))
    | none, _ => (.noJson, .error .noJsonFound)

/-- Models `AIAgentic._cleanJson`: the result component of `cleanRouteA`. -/
def cleanJsonA (s : List Char) : Except SanErr (List Char) :=
  (cleanRouteA s).2

/-- Models `GeminiService._cleanJsonResponse` (gemini.service.js:107-132): the same
fence stripping and slicing, but with no recovery branch and no thrown
error — when the brace span is absent the cleaned text itself is returned. -/
def cleanJsonResponseG (s : List Char) : List Char :=
  if s = [] then []
  else
    match firstIdxOf '{' (cleanCore s), lastIdxOf '}' (cleanCore s) with
    | some f, some l =>
      if f < l then trimL (((cleanCore s).drop f).take (l + 1 - f))
      else trimL (cleanCore s)
    | _, _ => trimL (cleanCore s)

-- ===========================================================================
-- JSON.parse model (used by AIAgentic._parseJson and the gemini services)
-- ===========================================================================

/-- JSON whitespace (RFC 8259): space, tab, newline, carriage return. -/
def isJsonWS (c : Char) : Bool :=
  c = ' ' || c = '\t' || c = '\n' || c = '\r'

/-- Value of a digit string. -/
def digitsVal (l : List Char) : Nat :=
  l.foldl (fun acc c => acc * 10 + (c.toNat - 48)) 0

/-- Hexadecimal digit test. -/
def isHexD (c : Char) : Bool :=
  c.isDigit || ('a' ≤ c ∧ c ≤ 'f') || ('A' ≤ c ∧ c ≤ 'F')

/-- Parse a JSON string body after the opening quote.  Handles the JSON
escapes and rejects raw control characters, like `JSON.parse`. -/
def parseStrBody : Nat → List Char → Option (List Char × List Char)
  | 0, _ => none
  | _, [] => none
  | fuel + 1, c :: r =>
    if c = dq then some ([], r)
    else if c = bslash then
      match r with
      | [] => none
      | e :: r2 =>
        let esc : Option Char :=
          if e = dq then some dq
          else if e = bslash then some bslash
          else if e = '/' then some '/'
          else if e = 'b' then some (Char.ofNat 8)
          else if e = 'f' then some (Char.ofNat 12)
          else if e = 'n' then some '\n'
          else if e = 'r' then some '\r'
          else if e = 't' then some '\t'
          else none
        match esc with
        | some ch =>
          match parseStrBody fuel r2 with
          | some (cs, rest) => some (ch :: cs, rest)
          | none => none
        | none =>
          if e = 'u' then
            match r2 with
            | h1 :: h2 :: h3 :: h4 :: r3 =>
              if isHexD h1 ∧ isHexD h2 ∧ isHexD h3 ∧ isHexD h4 then
                let hv := fun (h : Char) =>
                  if h.isDigit then h.toNat - 48
                  else if 'a' ≤ h ∧ h ≤ 'f' then h.toNat - 87
                  else h.toNat - 55
                match parseStrBody fuel r3 with
                | some (cs, rest) =>
                  some (Char.ofNat (((hv h1 * 16 + hv h2) * 16 + hv h3) * 16 + hv h4) :: cs, rest)
                | none => none
              else none
            | _ => none
          else none
    else if c.toNat < 32 then none
    else
      match parseStrBody fuel r with
      | some (cs, rest) => some (c :: cs, rest)
      | none => none

/-- Parse a JSON number at the head of the input, returning mantissa,
decimal exponent, and the rest.  Follows the RFC 8259 grammar (a leading
`0` is a complete integer part; malformed fraction/exponent parts are not
consumed, so trailing-garbage rejection mirrors `JSON.parse`). -/
def parseNum (s : List Char) : Option (Int × Int × List Char) :=
  let (neg, s1) :=
    match s with
    | c :: r => if c = '-' then (true, r) else (false, s)
    | [] => (false, s)
  let ip : Option (Nat × List Char) :=
    match s1 with
    | c :: r =>
      if c = '0' then some (0, r)
      else if c.isDigit then
        some (digitsVal (c :: r.takeWhile Char.isDigit), r.dropWhile Char.isDigit)
      else none
    | [] => none
  match ip with
  | none => none
  | some (i, s2) =>
    let (fd, s3) :=
      match s2 with
      | c :: r =>
        if c = '.' ∧ (r.takeWhile Char.isDigit) ≠ [] then
          (r.takeWhile Char.isDigit, r.dropWhile Char.isDigit)
        else ([], s2)
      | [] => ([], s2)
    let (ex, s4) :=
      match s3 with
      | c :: r =>
        if c = 'e' ∨ c = 'E' then
          let (esign, r1) :=
            match r with
            | c2 :: r2 =>
              if c2 = '-' then (true, r2)
              else if c2 = '+' then (false, r2)
              else (false, r)
            | [] => (false, r)
          let eds := r1.takeWhile Char.isDigit
          if eds = [] then ((0 : Int), s3)
          else ((if esign then -(digitsVal eds : Int) else (digitsVal eds : Int)), r1.dropWhile Char.isDigit)
        else ((0 : Int), s3)
      | [] => ((0 : Int), s3)
    let m : Int := (i * 10 ^ fd.length + digitsVal fd : Nat)
    some (if neg then -m else m, ex - fd.length, s4)

mutual

/-- Parse one JSON value at the head of the (whitespace-skipped) input. -/
def parseVal : Nat → List Char → Option (J × List Char)
  | 0, _ => none
  | fuel + 1, s =>
    match s with
    | [] => none
    | c :: r =>
      if c = dq then
        match parseStrBody (fuel + 1) r with
        | some (cs, rest) => some (.str ⟨cs⟩, rest)
        | none => none
      else if c = '{' then
        let r1 := r.dropWhile isJsonWS
        match r1 with
        | c2 :: r2 =>
          if c2 = '}' then some (.obj [], r2)
          else
            match parseMembers fuel r1 with
            | some (kvs, rest) => some (.obj kvs, rest)
            | none => none
        | [] => none
      else if c = '[' then
        let r1 := r.dropWhile isJsonWS
        match r1 with
        | c2 :: r2 =>
          if c2 = ']' then some (.arr [], r2)
          else
            match parseItems fuel r1 with
            | some (xs, rest) => some (.arr xs, rest)
            | none => none
        | [] => none
      else if [c] ++ r.take 3 = strL "true" then some (.bool true, r.drop 3)
      else if [c] ++ r.take 4 = strL "false" then some (.bool false, r.drop 4)
      else if [c] ++ r.take 3 = strL "null" then some (.null, r.drop 3)
      else
        match parseNum s with
        | some (m, e, rest) => some (.num m e, rest)
        | none => none

/-- Parse the members of a JSON object, positioned at the first key. -/
def parseMembers : Nat → List Char → Option (List (String × J) × List Char)
  | 0, _ => none
  | fuel + 1, s =>
    match s with
    | c :: r =>
      if c = dq then
        match parseStrBody (fuel + 1) r with
        | some (key, r1) =>
          match (r1.dropWhile isJsonWS) with
          | c2 :: r2 =>
            if c2 = ':' then
              match parseVal fuel ((r2.dropWhile isJsonWS)) with
              | some (v, r3) =>
                match (r3.dropWhile isJsonWS) with
                | c3 :: r4 =>
                  if c3 = ',' then
                    match parseMembers fuel ((r4.dropWhile isJsonWS)) with
                    | some (kvs, rest) => some ((⟨key⟩, v) :: kvs, rest)
                    | none => none
                  else if c3 = '}' then some ([(⟨key⟩, v)], r4)
                  else none
                | [] => none
              | none => none
            else none
          | [] => none
        | none => none
      else none
    | [] => none

/-- Parse the items of a JSON array, positioned at the first value. -/
def parseItems : Nat → List Char → Option (List J × List Char)
  | 0, _ => none
  | fuel + 1, s =>
    match parseVal fuel s with
    | some (v, r1) =>
      match (r1.dropWhile isJsonWS) with
      | c :: r2 =>
        if c = ',' then
          match parseItems fuel ((r2.dropWhile isJsonWS)) with
          | some (xs, rest) => some (v :: xs, rest)
          | none => none
        else if c = ']' then some ([v], r2)
        else none
      | [] => none
    | none => none

end

/-- Models `JSON.parse` on a text: one value, surrounded only by whitespace. -/
def jsonParse (s : List Char) : Option J :=
  match parseVal (s.length + 1) (s.dropWhile isJsonWS) with
  | some (v, rest) => if rest.dropWhile isJsonWS = [] then some v else none
  | none => none

/-- Models `AIAgentic._parseJson` (ai.agentic.js:603-613): `JSON.parse` of the
cleaned text, converting any parse failure into the error
"Invalid JSON from AI". -/
def parseJsonA (s : List Char) : Except String J :=
  match jsonParse s with
  | some v => .ok v
  | none => .error "Invalid JSON from AI"

-- ===========================================================================
-- RetryExecutor (gemini2.service.js:479-528, gemini.service.js:52-105)
-- ===========================================================================

/-- Models `GeminiService._isRetryableError` of gemini2.service.js:516-528:
lower-cases the message and looks for transient-condition substrings,
including the sanitizer's JSON-parse failure markers. -/
def isRetryable2 (msg : String) : Bool :=
  let m : String := ⟨lowerL msg.data⟩
  includes m "timeout" || includes m "rate" || includes m "overload" ||
  includes m "503" || includes m "429" || includes m "quota" ||
  includes m "invalid json" || includes m "json parse"

/-- Models `GeminiService._isRetryableError` of gemini.service.js:83-105:
HTTP 5xx/429 markers, "overloaded", and network trouble substrings. -/
def isRetryableG (msg : String) : Bool :=
  if includes msg "503" || includes msg "500" || includes msg "502" ||
     includes msg "504" || includes msg "429" ||
     includes (⟨lowerL msg.data⟩ : String) "overloaded" then true
  else if includes (⟨lowerL msg.data⟩ : String) "socket" ||
          includes (⟨lowerL msg.data⟩ : String) "connection" ||
          includes (⟨lowerL msg.data⟩ : String) "timeout" then true
  else false

/-- Observable outcome of a retry loop: a returned value, a thrown error,
or the `undefined` fall-through when the loop guard fails with no attempt
made. -/
inductive RetryRes (α : Type) : Type where
  | ok (a : α) : RetryRes α
  | thrown (e : String) : RetryRes α
  | undefined : RetryRes α
deriving DecidableEq

/-- One record of a finished retry loop: its outcome, the number of
attempts made, and the list of backoff delays slept (in ms, in order). -/
structure RetryTrace (α : Type) : Type where
  result : RetryRes α
  attempts : Nat
  sleeps : List Nat
deriving DecidableEq

/-- The `while (attempt < this.maxRetries)` loop of
gemini2.service.js:479-514.  `op n` is the result of the n-th invocation
of the wrapped operation (1-based); `retryable` classifies thrown errors.
On a retryable failure with attempts remaining it sleeps `delay`, doubles
it, and loops. -/
def retryLoop2 (op : Nat → Except String α) (retryable : String → Bool)
    (maxR attempt delay : Nat) : RetryTrace α :=
  if _h : attempt < maxR then
    let a := attempt + 1
    match op a with
    | .ok v => ⟨.ok v, a, []⟩
    | .error e =>
      if ¬ retryable e ∨ maxR ≤ a then ⟨.thrown e, a, []⟩
      else
        let t := retryLoop2 op retryable maxR a (delay * 2)
        ⟨t.result, t.attempts, delay :: t.sleeps⟩
  else ⟨.undefined, attempt, []⟩
termination_by maxR - attempt

/-- Models `GeminiService._retryWithBackoff` of gemini2.service.js with its
constructor configuration `maxRetries = 3`, `initialDelayMs = 1500`. -/
def retryWithBackoff2 (op : Nat → Except String α) : RetryTrace α :=
  retryLoop2 op isRetryable2 3 0 1500

/-- The `while (true)` loop of gemini.service.js:52-81: increments the
attempt counter, rethrows when the error is not retryable or the attempt
was the last, otherwise sleeps and doubles the delay. -/
def retryLoopG (op : Nat → Except String α) (retryable : String → Bool)
    (maxR attempt delay : Nat) : RetryTrace α :=
  let a := attempt + 1
  match op a with
  | .ok v => ⟨.ok v, a, []⟩
  | .error e =>
    if h : ¬ retryable e ∨ maxR ≤ a then ⟨.thrown e, a, []⟩
    else
      let t := retryLoopG op retryable maxR a (delay * 2)
      ⟨t.result, t.attempts, delay :: t.sleeps⟩
termination_by maxR - attempt
decreasing_by
  simp only [not_or, not_not, Nat.not_le] at h
  omega

/-- Models `GeminiService._retryWithBackoff` of gemini.service.js with its
constructor configuration `maxRetries = 3`, `initialDelayMs = 2000`. -/
def retryWithBackoffG (op : Nat → Except String α) : RetryTrace α :=
  retryLoopG op isRetryableG 3 0 2000

-- ===========================================================================
-- PayloadNormalizer (gemini2.service.js:288-473; an identical copy of the
-- function lives in the second document embedded in ai.agentic.js, lines
-- 1881-2066, differing only in `metadata.processingTime` being `null` and
-- in `_parseFloat` handling non-number/non-string inputs via typeof checks
-- — both differences are invisible to the claims below)
-- ===========================================================================

/-- Leading-float parsing of `parseFloat` on a string: optional whitespace,
optional sign, digits with optional fraction and exponent; the longest
valid prefix is used, anything after it is ignored; no digit at all gives
NaN (`none`). -/
def parseFloatChars (s0 : List Char) : Option (Int × Int) :=
  let l1 := s0.dropWhile isJsWS
  let (neg, l2) :=
    match l1 with
    | c :: r =>
      if c = '-' then (true, r) else if c = '+' then (false, r) else (false, l1)
    | [] => (false, l1)
  let ds := l2.takeWhile Char.isDigit
  let l3 := l2.dropWhile Char.isDigit
  let (fs, l4) :=
    match l3 with
    | c :: r =>
      if c = '.' then (r.takeWhile Char.isDigit, r.dropWhile Char.isDigit)
      else ([], l3)
    | [] => ([], l3)
  if ds = [] ∧ fs = [] then none
  else
    let e1 : Int :=
      match l4 with
      | c :: r =>
        if c = 'e' ∨ c = 'E' then
          let (esign, r1) :=
            match r with
            | c2 :: r2 =>
              if c2 = '-' then (true, r2)
              else if c2 = '+' then (false, r2)
              else (false, r)
            | [] => (false, r)
          let eds := r1.takeWhile Char.isDigit
          if eds = [] then 0
          else if esign then -(digitsVal eds : Int) else (digitsVal eds : Int)
        else 0
      | [] => 0
    let m : Int := (digitsVal ds * 10 ^ fs.length + digitsVal fs : Nat)
    some (if neg then -m else m, e1 - fs.length)

/-- JavaScript `parseFloat` on a value: numbers pass through, strings get
leading-float parsing, and other values give NaN (`none`).  (A one-element
array would stringify first in JS; no modelled code path feeds arrays to
`parseFloat`.) -/
def jsParseFloat : J → Option (Int × Int)
  | .num m e => some (m, e)
  | .str s => parseFloatChars s.data
  | _ => none

/-- Models `GeminiService._parseFloat(value, defaultValue)`
(gemini2.service.js:550-553): `parseFloat` with a default on NaN. -/
def parseFloatD (v d : J) : J :=
  match jsParseFloat v with
  | some (m, e) => .num m e
  | none => d

/-- Models `GeminiService._mapToListingPayload` (gemini2.service.js:288-473): the
total normalizer mapping the merged (possibly partial) phase outputs to
the canonical listing payload.  `ptOpt` models `options.processingTime`
and `genAt` the `new Date().toISOString()` timestamp. -/
def mapToListingPayload (data : J) (ptOpt : J) (genAt : String) : J :=
  let productId := jsOr (gf data "productIdentification") (.obj [])
  let condition := jsOr (gf data "condition") (.obj [])
  let pricing := jsOr (gf data "pricing") (.obj [])
  let shipping := jsOr (gf data "shipping") (.obj [])
  let weight := jsOr (gf data "weight") (.obj [])
  let dimensions := jsOr (gf data "dimensions") (.obj [])
  let seo := jsOr (gf data "seoOptimization") (.obj [])
  let recommendations := jsOr (gf data "listingRecommendations") (.obj [])
  let quality := jsOr (gf data "qualityChecks") (.obj [])
  let compliance := jsOr (gf data "complianceFlags") (.obj [])
  let disclaimers := jsOr (gf data "legalDisclaimers") (.obj [])
  .obj
    [("productIdentification", .obj
        [("brand", jsOr (gf productId "brand") (.str "Unbranded")),
         ("model", jsOr (gf productId "model") (.str "Unknown")),
         ("category",
          jsOr (gf productId "category") (jsOr (gf data "category") (.str "Other"))),
         ("upc", jsOr (gf productId "upc") .null),
         ("mpn", jsOr (gf productId "mpn") .null)]),
     ("title", jsOr (gf data "title") (.str "Untitled Item")),
     ("subtitle", jsOr (gf data "subtitle") .null),
     ("description", .obj
        [("plainText",
          jsOr (gf (gf data "description") "plainText")
            (jsOr (gf data "description") (.str "No description available"))),
         ("structure", jsOr (gf (gf data "description") "structure") .null)]),
     ("condition", .obj
        [("grade", jsOr (gf condition "grade") (.str "Used")),
         ("numericScore", jsOr (gf condition "numericScore") .null),
         ("description", jsOr (gf condition "description") .null),
         ("flaws", jsOr (gf condition "flaws") (.arr [])),
         ("userOverride", jsOr (gf condition "userOverride") .null)]),
     ("weight", .obj
        [("estimatedLbs", jsOr (gf weight "estimatedLbs") (.num 0 0)),
         ("estimatedOz", jsOr (gf weight "estimatedOz") (.num 0 0)),
         ("estimatedKg", jsOr (gf weight "estimatedKg") (.num 0 0)),
         ("confidenceLevel", jsOr (gf weight "confidenceLevel") (.str "low")),
         ("requiresManualVerification",
          jsNN (gf weight "requiresManualVerification") (.bool true)),
         ("rationale",
          jsOr (gf weight "rationale") (.str "Weight estimation unavailable"))]),
     ("dimensions", .obj
        [("length", jsOr (gf dimensions "length") .null),
         ("width", jsOr (gf dimensions "width") .null),
         ("height", jsOr (gf dimensions "height") .null),
         ("unit", jsOr (gf dimensions "unit") (.str "inches")),
         ("confidenceLevel", jsOr (gf dimensions "confidenceLevel") (.str "low"))]),
     ("pricing", .obj
        [("suggestedPrice", parseFloatD (gf pricing "suggestedPrice") (.num 0 0)),
         ("priceRange", .obj
            [("min", parseFloatD (gf (gf pricing "priceRange") "min") (.num 0 0)),
             ("max", parseFloatD (gf (gf pricing "priceRange") "max") (.num 0 0))]),
         ("currency", jsOr (gf pricing "currency") (.str "USD")),
         ("confidenceScore", jsOr (gf pricing "confidenceScore") (.num 5 (-1))),
         ("rationale", jsOr (gf pricing "rationale") .null),
         ("marketAnalysis",
          jsOr (gf pricing "marketAnalysis")
            (.obj
               [("soldListingsAnalyzed", .num 0 0),
                ("averageSoldPrice", .null),
                ("priceDistribution", .str "No market data available"),
                ("competitivePosition", .str "Unknown")])),
         ("strategyRecommendation", .obj
            [("listingFormat",
              jsOr (gf (gf pricing "strategyRecommendation") "listingFormat")
                (.str "Fixed Price")),
             ("auctionStartPrice",
              parseFloatD (gf (gf pricing "strategyRecommendation") "auctionStartPrice")
                .null),
             ("bestOfferEnabled",
              jsNN (gf (gf pricing "strategyRecommendation") "bestOfferEnabled")
                (.bool true)),
             ("bestOfferAutoAccept",
              parseFloatD (gf (gf pricing "strategyRecommendation") "bestOfferAutoAccept")
                .null),
             ("bestOfferAutoDecline",
              parseFloatD (gf (gf pricing "strategyRecommendation") "bestOfferAutoDecline")
                .null),
             ("shippingStrategy",
              jsOr (gf (gf pricing "strategyRecommendation") "shippingStrategy")
                (.str "Buyer Pays")),
             ("reasoning",
              jsOr (gf (gf pricing "strategyRecommendation") "reasoning")
                (.str "Default strategy"))])]),
     ("shipping", .obj
        [("recommendedService",
          jsOr (gf shipping "recommendedService")
            (jsOr (gf shipping "service") (.str "USPS Priority Mail"))),
         ("estimatedCost", parseFloatD (gf shipping "estimatedCost") (.num 0 0)),
         ("handlingTime", jsOr (gf shipping "handlingTime") (.str "1 business day")),
         ("packageType", jsOr (gf shipping "packageType") (.str "Box")),
         ("requiresSignature", jsNN (gf shipping "requiresSignature") (.bool false)),
         ("fragile", jsNN (gf shipping "fragile") (.bool false)),
         ("sellerTemplateMatch", jsOr (gf shipping "sellerTemplateMatch") .null)]),
     ("itemSpecifics", jsOr (gf data "itemSpecifics") (.obj [])),
     ("seoOptimization", .obj
        [("primaryKeywords",
          jsOr (gf seo "primaryKeywords") (jsOr (gf data "seoKeywords") (.arr []))),
         ("secondaryKeywords", jsOr (gf seo "secondaryKeywords") (.arr [])),
         ("longtailKeywords", jsOr (gf seo "longtailKeywords") (.arr [])),
         ("competitorKeywords", jsOr (gf seo "competitorKeywords") (.arr [])),
         ("searchVolume", jsOr (gf seo "searchVolume") .null)]),
     ("listingRecommendations", .obj
        [("bestOfferEnabled", jsNN (gf recommendations "bestOfferEnabled") (.bool true)),
         ("internationalShipping",
          jsNN (gf recommendations "internationalShipping") (.bool false)),
         ("returnsAccepted", jsNN (gf recommendations "returnsAccepted") (.bool true)),
         ("returnPeriod", jsOr (gf recommendations "returnPeriod") (.str "30 days")),
         ("returnShippingPaidBy",
          jsOr (gf recommendations "returnShippingPaidBy") (.str "Buyer")),
         ("promotedListings",
          jsOr (gf recommendations "promotedListings")
            (.obj
               [("recommended", .bool false),
                ("suggestedAdRate", .str "5%"),
                ("reasoning", .null)]))]),
     ("qualityChecks", .obj
        [("imageQuality", jsOr (gf quality "imageQuality") (.str "unknown")),
         ("imageQualityNotes", jsOr (gf quality "imageQualityNotes") .null),
         ("informationCompleteness",
          jsOr (gf quality "informationCompleteness") (.num 5 (-1))),
         ("missingInformation", jsOr (gf quality "missingInformation") (.arr [])),
         ("recommendedAdditionalPhotos",
          jsOr (gf quality "recommendedAdditionalPhotos") (.arr []))]),
     ("complianceFlags", .obj
        [("brandAuthenticity", jsOr (gf compliance "brandAuthenticity") (.str "uncertain")),
         ("prohibitedItems", jsNN (gf compliance "prohibitedItems") (.bool false)),
         ("restrictedCategories",
          jsNN (gf compliance "restrictedCategories") (.bool false)),
         ("requiresAdditionalDisclosures",
          jsNN (gf compliance "requiresAdditionalDisclosures") (.bool false)),
         ("warnings", jsOr (gf compliance "warnings") (.arr []))]),
     ("legalDisclaimers", .obj
        [("pricing",
          jsOr (gf disclaimers "pricing")
            (.str "AI-suggested prices are estimates based on market analysis. Seller is solely responsible for final pricing decisions. Actual market value may vary.")),
         ("condition",
          jsOr (gf disclaimers "condition")
            (.str "AI condition assessment is preliminary. Seller must verify and accurately represent item condition in final listing.")),
         ("accuracy",
          jsOr (gf disclaimers "accuracy")
            (.str "All AI-generated content is advisory. Seller is responsible for ensuring listing accuracy and compliance with eBay policies.")),
         ("liability",
          jsOr (gf disclaimers "liability")
            (.str "AI suggestions do not guarantee sales performance or listing acceptance by eBay."))]),
     ("metadata", .obj
        [("generatedAt", .str genAt),
         ("modelVersion", .str "gemini-2.5-flash"),
         ("processingTime", jsOr ptOpt .null)])]

-- ===========================================================================
-- Item-specifics post-processing
-- (ai.agentic.js:464-502 in generateListingContent and
--  ai.agentic2.js:456-500 in generateListingFromSnapshot)
-- ===========================================================================

/-- The per-key refill test
`!specs.Brand || specs.Brand === "string"` (falsy or placeholder). -/
def specNeedsFix (v : J) : Bool :=
  !truthy v ||
  (match v with
   | .str s => s = "string"
   | _ => false)

/-- The deletion test of ai.agentic.js:487-496:
`v === null || v === "null" || v === "string" || v === ""`. -/
def badSpecA (v : J) : Bool :=
  match v with
  | .null => true
  | .str s => s = "null" || s = "string" || s = ""
  | _ => false

/-- The deletion test of ai.agentic2.js:479-490: the same with an
additional `v === undefined` check. -/
def badSpec2 (v : J) : Bool :=
  match v with
  | .undefined => true
  | .null => true
  | .str s => s = "null" || s = "string" || s = ""
  | _ => false

/-- The deletion pass of ai.agentic.js:487-496: every entry whose value
fails `badSpecA` is removed from the map. -/
def deleteBadA (v : J) : J :=
  match v with
  | .obj kvs => J.obj (kvs.filter (fun kv => !badSpecA kv.2))
  | _ => v

/-- The specifics transformation of the `✅ POST-PROCESS` block of
`generateListingContent` (ai.agentic.js:464-502): refill
Brand/Model/Condition if falsy or `"string"`, then delete every entry
whose value is `null`/`"null"`/`"string"`/`""`.  `brand`, `modelName` and
`cond` are the fallback values computed at ai.agentic.js:369-372. -/
def fixSpecsCoreA (specs brand modelName cond : J) : J :=
  let s1 := if specNeedsFix (gf specs "Brand") then setProp specs "Brand" brand else specs
  let s2 := if specNeedsFix (gf s1 "Model") then setProp s1 "Model" modelName else s1
  let s3 :=
    if specNeedsFix (gf s2 "Condition") then setProp s2 "Condition" cond else s2
  deleteBadA s3

/-- Models `generateListingContent` post-processing applied to the parsed phase
output: the block runs only when `parsed.itemSpecifics` is truthy. -/
def fixSpecsA (parsed : J) (brand modelName cond : J) : J :=
  if truthy (gf parsed "itemSpecifics") then
    setProp parsed "itemSpecifics"
      (fixSpecsCoreA (gf parsed "itemSpecifics") brand modelName cond)
  else parsed

/-- The specifics transformation of `generateListingFromSnapshot`
(ai.agentic2.js:456-500): refill first, then delete invalid values (now
including `undefined`), then restore `{Brand, Model, Condition}` when the
map ended up empty.  `cond` is the snapshot's condition object, whose
`grade || "Used"` is the Condition fallback. -/
def fixSpecsCore2 (specs brand modelName cond : J) : J :=
  let s1 := if specNeedsFix (gf specs "Brand") then setProp specs "Brand" brand else specs
  let s2 := if specNeedsFix (gf s1 "Model") then setProp s1 "Model" modelName else s1
  let s3 :=
    if specNeedsFix (gf s2 "Condition") then
      setProp s2 "Condition" (jsOr (gf cond "grade") (.str "Used"))
    else s2
  let s4 :=
    match s3 with
    | .obj kvs => J.obj (kvs.filter (fun kv => !badSpec2 kv.2))
    | _ => s3
  match s4 with
  | .obj [] =>
    J.obj
      [("Brand", brand), ("Model", modelName),
       ("Condition", jsOr (gf cond "grade") (.str "Used"))]
  | _ => s4

/-- Models `generateListingFromSnapshot` post-processing applied to the parsed
output: the block runs only when `parsed.itemSpecifics` is truthy. -/
def fixSpecs2 (parsed : J) (brand modelName : J) (cond : J) : J :=
  if truthy (gf parsed "itemSpecifics") then
    setProp parsed "itemSpecifics"
      (fixSpecsCore2 (gf parsed "itemSpecifics") brand modelName cond)
  else parsed

-- ===========================================================================
-- Pipeline phase sequencing
-- ===========================================================================

/-- The phases of the 5-phase variant that can run after input validation
(Phase 0 is commented out in the source). -/
inductive Phase : Type where
  | grounding : Phase
  | physicalAttributes : Phase
  | pricingStrategy : Phase
  | listingContent : Phase
deriving DecidableEq

/-- Models `GeminiService.analyzeMultipleImages` (gemini2.service.js:45-282) from
Phase 1 onwards: the grounding result gates continuation; later phases are
supplied as oracle functions of the data the source passes them, and the
returned list records which phases executed.  `cid` and `ptime` stand for
the correlation id and measured processing time. -/
def analyzeMultipleImages (groundingResult : J) (physFn : J → J)
    (priceFn : J → J → J → J → J) (contentFn : J → J → J → J)
    (options : J) (cid : String) (ptime : Int) (genAt : String) :
    J × List Phase :=
  if ¬ truthy (gf (gf groundingResult "compliance") "isEbayCompliant") then
    (.obj
       [("success", .bool false), ("rejected", .bool true),
        ("reason", .str "EBAY_POLICY_VIOLATION"),
        ("details", groundingResult),
        ("metadata", .obj
           [("correlationId", .str cid), ("processingTime", .num ptime 0)])],
     [.grounding])
  else if truthy (gf (gf groundingResult "recommendations") "reviewNeeded") then
    (.obj
       [("success", .bool false), ("rejected", .bool false),
        ("requiresReview", .bool true),
        ("reason", .str "MANUAL_REVIEW_REQUIRED"),
        ("details", groundingResult),
        ("metadata", .obj
           [("correlationId", .str cid), ("processingTime", .num ptime 0)])],
     [.grounding])
  else
    let productId := gf groundingResult "productIdentification"
    let phys := physFn productId
    let price :=
      priceFn productId phys (jsOr (gf options "marketData") (.arr []))
        (jsOr (gf options "sellerConfig") (.obj []))
    let content := contentFn productId phys price
    let merged : J := .obj
      [("productIdentification", productId),
       ("title", gf content "title"),
       ("subtitle", gf content "subtitle"),
       ("description", gf content "description"),
       ("condition", gf phys "condition"),
       ("weight", gf phys "weight"),
       ("dimensions", gf phys "dimensions"),
       ("pricing", gf price "pricing"),
       ("shipping", gf price "shipping"),
       ("itemSpecifics", gf content "itemSpecifics"),
       ("seoOptimization", gf content "seoOptimization"),
       ("listingRecommendations", gf content "listingRecommendations"),
       ("qualityChecks", gf phys "qualityChecks"),
       ("complianceFlags", gf content "complianceFlags")]
    (mapToListingPayload merged (.num ptime 0) genAt,
     [.grounding, .physicalAttributes, .pricingStrategy, .listingContent])

/-- The two steps of the condensed variant. -/
inductive Phase2 : Type where
  | visualSnapshot : Phase2
  | listingFromSnapshot : Phase2
deriving DecidableEq

/-- A thrown JavaScript runtime error. -/
inductive JsErr : Type where
  | referenceError (name : String) : JsErr
deriving DecidableEq

/-- Models `AIAgentic.generateCompleteListing` (ai.agentic2.js:33-103).  When the
visual snapshot reports `compliance.isEbayCompliant` falsy, the source
builds the rejection object whose metadata contains `code: code`
(ai.agentic2.js:58); no binding named `code` exists in any enclosing
scope, so evaluating the object literal throws
`ReferenceError: code is not defined` instead of returning.  Otherwise
the listing step runs and the final payload is the listing core with its
metadata spread-merged with the correlation id and processing time. -/
def generateCompleteListing (snapshot : J) (listingFn : J → J)
    (cid : String) (ptime : Int) : Except JsErr J × List Phase2 :=
  if ¬ truthy (gf (gf snapshot "compliance") "isEbayCompliant") then
    (.error (.referenceError "code"), [.visualSnapshot])
  else
    let core := listingFn snapshot
    let meta :=
      setProp
        (setProp (jsOr (gf core "metadata") (.obj [])) "correlationId" (.str cid))
        "processingTime" (.num ptime 0)
    (.ok (setProp core "metadata" meta), [.visualSnapshot, .listingFromSnapshot])

/-- Fields of an object value (empty for non-objects). -/
def objFields : J → List (String × J)
  | .obj kvs => kvs
  | _ => []

-- ===========================================================================
-- Helper lemmas about the sanitizer's text transformations
-- ===========================================================================

theorem dropWhile_eq_self_of_head {p : Char → Bool} {s : List Char}
    (h : ∀ c, s.head? = some c → p c = false) : s.dropWhile p = s := by
  cases s with
  | nil => rfl
  | cons a t => simp [List.dropWhile_cons, h a rfl]

theorem mem_of_mem_trimL {c : Char} {s : List Char} (h : c ∈ trimL s) : c ∈ s := by
  unfold trimL at h
  rw [List.mem_reverse] at h
  have h2 := (List.dropWhile_sublist isJsWS).mem h
  rw [List.mem_reverse] at h2
  exact (List.dropWhile_sublist isJsWS).mem h2

theorem mem_of_mem_stripLead {c : Char} {s : List Char}
    (h : c ∈ stripLeadFence s) : c ∈ s := by
  unfold stripLeadFence at h
  split at h
  · have h2 := (List.dropWhile_sublist isJsWS).mem h
    have h3 := (List.dropWhile_sublist Char.isAlpha).mem h2
    exact List.mem_of_mem_drop h3
  · exact h

theorem mem_of_mem_stripTrail {c : Char} {s : List Char}
    (h : c ∈ stripTrailFence s) : c ∈ s := by
  unfold stripTrailFence at h
  split at h
  · rw [List.mem_reverse] at h
    have h2 := (List.dropWhile_sublist isJsWS).mem h
    have h3 := List.mem_of_mem_drop h2
    rw [List.mem_reverse] at h3
    exact h3
  · exact h

theorem mem_of_mem_removeTicks {c : Char} :
    ∀ {s : List Char}, c ∈ removeTicks s → c ∈ s := by
  intro s
  induction s using removeTicks.induct with
  | case1 => intro h; exact h
  | case2 a => intro h; exact h
  | case3 a b => intro h; exact h
  | case4 a b e r hcond ih =>
    intro h
    rw [removeTicks, if_pos hcond] at h
    simp only [List.mem_cons]
    exact Or.inr (Or.inr (Or.inr (ih h)))
  | case5 a b e r hcond ih =>
    intro h
    rw [removeTicks, if_neg hcond] at h
    rcases List.mem_cons.mp h with h1 | h1
    · exact List.mem_cons.mpr (Or.inl h1)
    · exact List.mem_cons.mpr (Or.inr (ih h1))

theorem mem_of_mem_cleanCore {c : Char} {s : List Char}
    (h : c ∈ cleanCore s) : c ∈ s :=
  mem_of_mem_trimL
    (mem_of_mem_stripLead
      (mem_of_mem_stripTrail
        (mem_of_mem_removeTicks (mem_of_mem_trimL h))))

theorem firstIdxOf_eq_none_iff {ch : Char} :
    ∀ {s : List Char}, firstIdxOf ch s = none ↔ ch ∉ s := by
  intro s
  induction s with
  | nil => simp [firstIdxOf]
  | cons a t ih =>
    by_cases hc : a = ch
    · subst hc; simp [firstIdxOf]
    · rw [firstIdxOf, if_neg hc]
      simp only [Option.map_eq_none', ih, List.mem_cons, not_or]
      constructor
      · intro h; exact ⟨fun he => hc he.symm, h⟩
      · intro h; exact h.2

theorem firstIdxOf_eq_some_iff {ch : Char} :
    ∀ {s : List Char} {f : Nat},
      firstIdxOf ch s = some f ↔
        ∃ pre post, s = pre ++ ch :: post ∧ ch ∉ pre ∧ pre.length = f := by
  intro s
  induction s with
  | nil =>
    intro f
    constructor
    · intro h; cases h
    · rintro ⟨pre, post, hdec, -, -⟩
      exact absurd hdec.symm (List.append_ne_nil_of_right_ne_nil pre (by simp))
  | cons a t ih =>
    intro f
    by_cases hc : a = ch
    · subst hc
      rw [firstIdxOf, if_pos rfl]
      constructor
      · intro h
        cases h
        exact ⟨[], t, rfl, by simp, rfl⟩
      · rintro ⟨pre, post, hdec, hnot, hlen⟩
        cases pre with
        | nil => cases hdec; cases hlen; rfl
        | cons p pre' =>
          have hp : p = a := (List.cons_eq_cons.mp hdec).1.symm
          subst hp
          exact absurd (List.mem_cons_self _ _) hnot
    · rw [firstIdxOf, if_neg hc, Option.map_eq_some']
      constructor
      · rintro ⟨f', hf', rfl⟩
        obtain ⟨pre, post, rfl, hnp, rfl⟩ := ih.mp hf'
        refine ⟨a :: pre, post, rfl, ?_, rfl⟩
        simp only [List.mem_cons, not_or]
        exact ⟨fun h => hc h.symm, hnp⟩
      · rintro ⟨pre, post, hdec, hnot, rfl⟩
        cases pre with
        | nil =>
          exact absurd (List.cons_eq_cons.mp hdec).1 hc
        | cons p pre' =>
          obtain ⟨rfl, htail⟩ := List.cons_eq_cons.mp hdec
          have hnp : ch ∉ pre' := fun h => hnot (List.mem_cons.mpr (Or.inr h))
          exact ⟨pre'.length, ih.mpr ⟨pre', post, htail, hnp, rfl⟩, rfl⟩

theorem lastIdxOf_eq_none_iff {ch : Char} {s : List Char} :
    lastIdxOf ch s = none ↔ ch ∉ s := by
  unfold lastIdxOf
  rw [Option.map_eq_none', firstIdxOf_eq_none_iff, List.mem_reverse]

theorem lastIdxOf_eq_some_iff {ch : Char} {s : List Char} {g : Nat} :
    lastIdxOf ch s = some g ↔
      ∃ pre post, s = pre ++ ch :: post ∧ ch ∉ post ∧ pre.length = g := by
  unfold lastIdxOf
  rw [Option.map_eq_some']
  constructor
  · rintro ⟨j, hj, rfl⟩
    obtain ⟨preR, postR, hdec, hnR, rfl⟩ := firstIdxOf_eq_some_iff.mp hj
    refine ⟨postR.reverse, preR.reverse, ?_, by simpa using hnR, ?_⟩
    · have := congrArg List.reverse hdec
      simpa using this
    · have hlen : s.length = preR.length + 1 + postR.length := by
        have := congrArg List.length hdec
        simpa [Nat.add_comm, Nat.add_left_comm] using this
      simp only [List.length_reverse]
      omega
  · rintro ⟨pre, post, rfl, hnot, rfl⟩
    refine ⟨post.length, firstIdxOf_eq_some_iff.mpr
      ⟨post.reverse, pre.reverse, by simp, by simpa using hnot, by simp⟩, ?_⟩
    simp only [List.length_append, List.length_cons]
    omega

theorem trimL_eq_self {s : List Char} {c d : Char}
    (hh : s.head? = some c) (hc : isJsWS c = false)
    (hl : s.getLast? = some d) (hd : isJsWS d = false) : trimL s = s := by
  have h1 : s.dropWhile isJsWS = s := by
    refine dropWhile_eq_self_of_head (fun c' hc' => ?_)
    rw [hh] at hc'; cases hc'; exact hc
  have h2 : s.reverse.dropWhile isJsWS = s.reverse := by
    refine dropWhile_eq_self_of_head (fun c' hc' => ?_)
    rw [List.head?_reverse, hl] at hc'; cases hc'; exact hd
  unfold trimL
  rw [h1, h2, List.reverse_reverse]

theorem stripLead_eq_self {s : List Char} {c : Char}
    (hh : s.head? = some c) (hc : c ≠ tick) : stripLeadFence s = s := by
  unfold stripLeadFence
  rw [if_neg]
  intro heq
  cases s with
  | nil => cases hh
  | cons a t =>
    cases hh
    exact hc (List.cons_eq_cons.mp heq).1

theorem stripTrail_eq_self {s : List Char} {d : Char}
    (hl : s.getLast? = some d) (hd : d ≠ tick) : stripTrailFence s = s := by
  unfold stripTrailFence
  rw [if_neg]
  intro heq
  cases hrev : s.reverse with
  | nil => rw [hrev] at heq; cases heq
  | cons a t =>
    have ha : s.reverse.head? = some a := by rw [hrev]; rfl
    rw [List.head?_reverse, hl] at ha
    cases ha
    rw [hrev] at heq
    exact hd (List.cons_eq_cons.mp heq).1

theorem getLast?_cons_of_ne_nil {α : Type} {c : α} {l : List α} (h : l ≠ []) :
    (c :: l).getLast? = l.getLast? := by
  cases l with
  | nil => exact absurd rfl h
  | cons b t => exact List.getLast?_cons_cons

theorem removeTicks_head? {s : List Char} {c : Char}
    (hh : s.head? = some c) (hc : c ≠ tick) :
    (removeTicks s).head? = some c := by
  cases s with
  | nil => cases hh
  | cons a t =>
    cases hh
    cases t with
    | nil => rfl
    | cons b t2 =>
      cases t2 with
      | nil => rfl
      | cons e r =>
        rw [removeTicks, if_neg (fun h => hc h.1)]
        rfl

theorem removeTicks_getLast? {d : Char} (hd : d ≠ tick) :
    ∀ {s : List Char}, s.getLast? = some d →
      (removeTicks s).getLast? = some d := by
  intro s
  induction s using removeTicks.induct with
  | case1 => intro h; cases h
  | case2 a => intro h; exact h
  | case3 a b => intro h; exact h
  | case4 a b e r hcond ih =>
    intro h
    rw [removeTicks, if_pos hcond]
    simp only [List.getLast?_cons_cons] at h
    cases r with
    | nil =>
      rw [List.getLast?_singleton] at h
      cases h
      exact absurd hcond.2.2 hd
    | cons x r' =>
      rw [List.getLast?_cons_cons] at h
      exact ih h
  | case5 a b e r hcond ih =>
    intro h
    rw [removeTicks, if_neg hcond]
    have htail : (b :: e :: r).getLast? = some d := by
      simpa only [List.getLast?_cons_cons] using h
    have hrec := ih htail
    have hne : removeTicks (b :: e :: r) ≠ [] := by
      intro hnil
      rw [hnil] at hrec
      cases hrec
    rw [getLast?_cons_of_ne_nil hne]
    exact hrec

theorem removeTicks_head?_ne_tick :
    ∀ {t : List Char}, t.head? ≠ some tick →
      (removeTicks t).head? ≠ some tick := by
  intro t
  cases t with
  | nil => intro _ h; cases h
  | cons a r =>
    intro h
    have ha : a ≠ tick := fun hq => h (by rw [hq]; rfl)
    rw [@removeTicks_head? (a :: r) a rfl ha]
    exact h

theorem removeTicks_take2 :
    ∀ {t : List Char}, t.take 2 ≠ [tick, tick] →
      (removeTicks t).take 2 ≠ [tick, tick] := by
  intro t
  cases t with
  | nil => intro h; exact h
  | cons a r =>
    cases r with
    | nil => intro h; exact h
    | cons b r2 =>
      cases r2 with
      | nil => intro h; exact h
      | cons e r3 =>
        intro h
        by_cases ha : a = tick
        · subst ha
          have hb : b ≠ tick := by
            intro hb; subst hb
            exact h rfl
          rw [removeTicks, if_neg (fun hcond => hb hcond.2.1)]
          have hbhead : (removeTicks (b :: e :: r3)).head? = some b :=
            removeTicks_head? rfl hb
          intro heq
          cases hrt : removeTicks (b :: e :: r3) with
          | nil => rw [hrt] at hbhead; cases hbhead
          | cons x w =>
            rw [hrt] at hbhead heq
            have hx : x = b := by cases hbhead; rfl
            subst hx
            exact hb (List.cons_eq_cons.mp ((List.cons_eq_cons.mp heq).2)).1
        · rw [removeTicks, if_neg (fun hcond => ha hcond.1)]
          intro heq
          exact ha (List.cons_eq_cons.mp heq).1

theorem removeTicks_idem :
    ∀ (s : List Char), removeTicks (removeTicks s) = removeTicks s := by
  intro s
  induction s using removeTicks.induct with
  | case1 => rfl
  | case2 a => rfl
  | case3 a b => rfl
  | case4 a b e r hcond ih =>
    rw [removeTicks, if_pos hcond]
    exact ih
  | case5 a b e r hcond ih =>
    have hstep : removeTicks (a :: b :: e :: r) = a :: removeTicks (b :: e :: r) := by
      rw [removeTicks, if_neg hcond]
    rw [hstep]
    cases hR : removeTicks (b :: e :: r) with
    | nil => rfl
    | cons x w =>
      cases w with
      | nil => rfl
      | cons y w2 =>
        rw [hR] at ih
        have hcnd2 : ¬ (a = tick ∧ x = tick ∧ y = tick) := by
          rintro ⟨haT, hxT, hyT⟩
          have hbe : (b :: e :: r).take 2 ≠ [tick, tick] := by
            intro h2
            apply hcond
            refine ⟨haT, ?_, ?_⟩
            · exact (List.cons_eq_cons.mp h2).1
            · exact (List.cons_eq_cons.mp ((List.cons_eq_cons.mp h2).2)).1
          have hkeep := removeTicks_take2 hbe
          rw [hR] at hkeep
          exact hkeep (by rw [hxT, hyT]; rfl)
        rw [removeTicks, if_neg hcnd2, ih]

theorem cleanCore_of_bare {s : List Char}
    (hh : s.head? = some '{') (hl : s.getLast? = some '}') :
    cleanCore s = removeTicks s := by
  have h1 : trimL s = s := trimL_eq_self hh (by decide) hl (by decide)
  have h2 : stripLeadFence s = s := stripLead_eq_self hh (by decide)
  have h3 : stripTrailFence s = s := stripTrail_eq_self hl (by decide)
  have h4 : (removeTicks s).head? = some '{' := removeTicks_head? hh (by decide)
  have h5 : (removeTicks s).getLast? = some '}' :=
    removeTicks_getLast? (by decide) hl
  have h6 : trimL (removeTicks s) = removeTicks s :=
    trimL_eq_self h4 (by decide) h5 (by decide)
  unfold cleanCore
  rw [h1, h2, h3, h6]

theorem bare_head_getLast_len {u : List Char}
    (hh : u.head? = some '{') (hl : u.getLast? = some '}') :
    firstIdxOf '{' u = some 0 ∧ lastIdxOf '}' u = some (u.length - 1) ∧
      0 < u.length - 1 := by
  obtain ⟨t, rfl⟩ : ∃ t, u = '{' :: t := by
    cases u with
    | nil => cases hh
    | cons a t => cases hh; exact ⟨t, rfl⟩
  have ht : t ≠ [] := by
    rintro rfl
    rw [List.getLast?_singleton] at hl
    cases hl
  constructor
  · rw [firstIdxOf, if_pos rfl]
  constructor
  · have hrev : ('{' :: t).reverse.head? = some '}' := by
      rw [List.head?_reverse]; exact hl
    cases hrw : ('{' :: t).reverse with
    | nil => rw [hrw] at hrev; cases hrev
    | cons a w =>
      rw [hrw] at hrev
      cases hrev
      unfold lastIdxOf
      rw [hrw, firstIdxOf, if_pos rfl]
      simp
  · have : 1 ≤ t.length := by
      cases t with
      | nil => exact absurd rfl ht
      | cons x w => simp
    simp only [List.length_cons]
    omega

theorem cleanA_of_bare {s : List Char}
    (hh : s.head? = some '{') (hl : s.getLast? = some '}') :
    cleanJsonA s = .ok (removeTicks s) ∧
      cleanJsonResponseG s = removeTicks s := by
  have hs : s ≠ [] := by rintro rfl; cases hh
  have hcore : cleanCore s = removeTicks s := cleanCore_of_bare hh hl
  have h4 : (removeTicks s).head? = some '{' := removeTicks_head? hh (by decide)
  have h5 : (removeTicks s).getLast? = some '}' :=
    removeTicks_getLast? (by decide) hl
  obtain ⟨hf, hla, hpos⟩ := bare_head_getLast_len h4 h5
  have hlen1 : 1 ≤ (removeTicks s).length := by omega
  have hslice :
      ((removeTicks s).drop 0).take ((removeTicks s).length - 1 + 1 - 0) =
        removeTicks s := by
    rw [List.drop_zero, Nat.sub_zero, Nat.sub_add_cancel hlen1, List.take_length]
  have htrim : trimL (removeTicks s) = removeTicks s :=
    trimL_eq_self h4 (by decide) h5 (by decide)
  constructor
  · unfold cleanJsonA cleanRouteA
    rw [if_neg hs]
    simp only [hcore, hf, hla]
    rw [if_pos hpos, hslice, htrim]
  · unfold cleanJsonResponseG
    rw [if_neg hs]
    simp only [hcore, hf, hla]
    rw [if_pos hpos, hslice, htrim]

theorem drop_append_cons {pre post : List Char} {x : Char} :
    (pre ++ x :: post).drop (pre.length + 1) = post := by
  rw [List.drop_append_eq_append_drop]
  simp

theorem mem_drop_of_append_cons {c : Char} {l P2 Q2 : List Char} {n : Nat}
    (hdec : l = P2 ++ c :: Q2) (hn : n ≤ P2.length) :
    c ∈ l.drop n := by
  subst hdec
  rw [List.drop_append_eq_append_drop]
  have hz : (c :: Q2).drop (n - P2.length) = c :: Q2 := by
    have h0 : n - P2.length = 0 := by omega
    rw [h0, List.drop_zero]
  rw [hz]
  exact List.mem_append.mpr (Or.inr (List.mem_cons_self _ _))

theorem cleanRouteA_eq_noJson {s : List Char} (hs : s ≠ [])
    (hf : firstIdxOf '{' (cleanCore s) = none) :
    cleanRouteA s = (.noJson, .error .noJsonFound) := by
  unfold cleanRouteA
  rw [if_neg hs, hf]

theorem cleanRouteA_eq_rec_none {s : List Char} {f : Nat} (hs : s ≠ [])
    (hf : firstIdxOf '{' (cleanCore s) = some f)
    (hl : lastIdxOf '}' (cleanCore s) = none) :
    cleanRouteA s =
      (.recovered, .ok (trimL (recoverJson ((cleanCore s).drop f)))) := by
  unfold cleanRouteA
  rw [if_neg hs, hf, hl]

theorem cleanRouteA_eq_sliced {s : List Char} {f g : Nat} (hs : s ≠ [])
    (hf : firstIdxOf '{' (cleanCore s) = some f)
    (hl : lastIdxOf '}' (cleanCore s) = some g) (hfg : f < g) :
    cleanRouteA s =
      (.sliced, .ok (trimL (((cleanCore s).drop f).take (g + 1 - f)))) := by
  unfold cleanRouteA
  rw [if_neg hs, hf, hl]
  dsimp only
  rw [if_pos hfg]

theorem cleanRouteA_eq_rec_le {s : List Char} {f g : Nat} (hs : s ≠ [])
    (hf : firstIdxOf '{' (cleanCore s) = some f)
    (hl : lastIdxOf '}' (cleanCore s) = some g) (hfg : ¬ f < g) :
    cleanRouteA s =
      (.recovered, .ok (trimL (recoverJson ((cleanCore s).drop f)))) := by
  unfold cleanRouteA
  rw [if_neg hs, hf, hl]
  dsimp only
  rw [if_neg hfg]

theorem cleanRouteA_recovered_iff {s : List Char} (hs : s ≠ []) :
    (cleanRouteA s).1 = SanRoute.recovered ↔
      ∃ pre post, cleanCore s = pre ++ '{' :: post ∧ '{' ∉ pre ∧ '}' ∉ post := by
  cases hf : firstIdxOf '{' (cleanCore s) with
  | none =>
    rw [cleanRouteA_eq_noJson hs hf]
    constructor
    · intro h; cases h
    · rintro ⟨pre, post, hdec, -, -⟩
      have hmem : '{' ∈ cleanCore s := by
        rw [hdec]
        exact List.mem_append.mpr (Or.inr (List.mem_cons_self _ _))
      exact absurd hmem (firstIdxOf_eq_none_iff.mp hf)
  | some f =>
    obtain ⟨pre, post, hdec, hpre, hlen⟩ := firstIdxOf_eq_some_iff.mp hf
    cases hl : lastIdxOf '}' (cleanCore s) with
    | none =>
      rw [cleanRouteA_eq_rec_none hs hf hl]
      constructor
      · intro _
        refine ⟨pre, post, hdec, hpre, fun hmem => ?_⟩
        have hin : '}' ∈ cleanCore s := by
          rw [hdec]
          exact List.mem_append.mpr (Or.inr (List.mem_cons.mpr (Or.inr hmem)))
        exact absurd hin (lastIdxOf_eq_none_iff.mp hl)
      · intro _; rfl
    | some g =>
      obtain ⟨P2, Q2, hdec2, hQ2, hlen2⟩ := lastIdxOf_eq_some_iff.mp hl
      by_cases hfg : f < g
      · rw [cleanRouteA_eq_sliced hs hf hl hfg]
        constructor
        · intro h; cases h
        · rintro ⟨pre', post', hdec', hpre', hpost'⟩
          -- the first-brace decomposition is unique, so pre'.length = f
          have hf' : firstIdxOf '{' (cleanCore s) = some pre'.length :=
            firstIdxOf_eq_some_iff.mpr ⟨pre', post', hdec', hpre', rfl⟩
          rw [hf] at hf'
          have hflen : pre'.length = f := by cases hf'; rfl
          -- the last '}' sits at position g > f, hence inside post'
          have hmem : '}' ∈ (cleanCore s).drop (pre'.length + 1) :=
            mem_drop_of_append_cons hdec2 (by omega)
          rw [hdec', drop_append_cons] at hmem
          exact absurd hmem hpost'
      · rw [cleanRouteA_eq_rec_le hs hf hl hfg]
        constructor
        · intro _
          refine ⟨pre, post, hdec, hpre, fun hmem => ?_⟩
          -- a '}' in post sits after position f, but the last '}' is at g ≤ f
          have hpost_eq : (cleanCore s).drop (f + 1) = post := by
            rw [hdec, ← hlen, drop_append_cons]
          have hmem2 : '}' ∈ (cleanCore s).drop (f + 1) := by
            rw [hpost_eq]; exact hmem
          have hQdrop : (cleanCore s).drop (g + 1) = Q2 := by
            rw [hdec2, ← hlen2, drop_append_cons]
          have hinQ : '}' ∈ Q2 := by
            rw [← hQdrop]
            have hsplit : (f + 1) = (g + 1) + (f - g) := by omega
            rw [hsplit, ← List.drop_drop] at hmem2
            exact List.mem_of_mem_drop hmem2
          exact absurd hinQ hQ2
        · intro _; rfl

-- ===========================================================================
-- Claim theorems
-- ===========================================================================

/-- C1: a grounding/visual-snapshot phase reporting
`compliance.isEbayCompliant == false` should make the pipeline return a
Rejected outcome (`success:false, rejected:true,
reason == "EBAY_POLICY_VIOLATION"`, details, metadata) with no further
phases executed, in both variants.  Evaluated at the failing input: the
5-phase variant (`analyzeMultipleImages`) does return exactly that object
after the grounding phase alone, but the condensed variant
(`generateCompleteListing`) throws `ReferenceError: code is not defined`
instead of returning, because its rejection metadata reads the undeclared
variable `code` (ai.agentic2.js:58). -/
theorem c1_compliance_rejection_evaluation :
    generateCompleteListing
        (J.obj [("compliance", .obj
            [("isEbayCompliant", .bool false), ("reason", .str "weapon")])])
        (fun _ => .obj []) "cid-1" 42 =
      (.error (.referenceError "code"), [.visualSnapshot]) ∧
    analyzeMultipleImages
        (J.obj [("compliance", .obj
            [("isEbayCompliant", .bool false), ("reason", .str "weapon")])])
        (fun _ => .obj []) (fun _ _ _ _ => .obj []) (fun _ _ _ => .obj [])
        (.obj []) "cid-1" 42 "ts" =
      (.obj
         [("success", .bool false), ("rejected", .bool true),
          ("reason", .str "EBAY_POLICY_VIOLATION"),
          ("details", .obj [("compliance", .obj
              [("isEbayCompliant", .bool false), ("reason", .str "weapon")])]),
          ("metadata", .obj
             [("correlationId", .str "cid-1"), ("processingTime", .num 42 0)])],
       [.grounding]) :=
  ⟨rfl, rfl⟩

/-- C3: on the truncated input `{"a": {"b": [1, 2` the sanitizer's
structural recovery yields a string that JSON-parses to an object whose
`a.b` field equals the array `[1, 2]`. -/
theorem c3_truncation_recovery :
    ∃ out v,
      cleanJsonA (strL "\x7b\x22a\x22: \x7b\x22b\x22: [1, 2") = .ok out ∧
      jsonParse out = some v ∧
      gf (gf v "a") "b" = .arr [.num 1 0, .num 2 0] :=
  ⟨strL "\x7b\x22a\x22: \x7b\x22b\x22: [1, 2]\x7d\x7d",
   .obj [("a", .obj [("b", .arr [.num 1 0, .num 2 0])])], rfl, rfl, rfl⟩

/-- C4: an operation failing with a retryable error on every attempt is
invoked exactly `maxRetries = 3` times by both `_retryWithBackoff`
implementations, with the backoff delay slept and doubled between
attempts (1500→3000 ms in gemini2.service.js, 2000→4000 ms in
gemini.service.js), after which the error of the last attempt is
thrown. -/
theorem c4_retry_exhaustion {α : Type} (op opG : Nat → Except String α)
    (e eG : Nat → String)
    (h1 : ∀ n, op n = .error (e n)) (h2 : ∀ n, isRetryable2 (e n) = true)
    (h3 : ∀ n, opG n = .error (eG n)) (h4 : ∀ n, isRetryableG (eG n) = true) :
    retryWithBackoff2 op = ⟨.thrown (e 3), 3, [1500, 3000]⟩ ∧
    retryWithBackoffG opG = ⟨.thrown (eG 3), 3, [2000, 4000]⟩ := by
  constructor
  · simp [retryWithBackoff2, retryLoop2, h1 1, h1 2, h1 3, h2 1, h2 2, h2 3]
  · simp [retryWithBackoffG, retryLoopG, h3 1, h3 2, h3 3, h4 1, h4 2, h4 3]

/-- Witness for C4 at the always-"timeout" operation. -/
theorem c4_witness :
    retryWithBackoff2 (fun _ => (.error "timeout" : Except String Unit)) =
      ⟨.thrown "timeout", 3, [1500, 3000]⟩ ∧
    retryWithBackoffG (fun _ => (.error "timeout" : Except String Unit)) =
      ⟨.thrown "timeout", 3, [2000, 4000]⟩ :=
  c4_retry_exhaustion _ _ (fun _ => "timeout") (fun _ => "timeout")
    (fun _ => rfl) (fun _ => (by decide : isRetryable2 "timeout" = true))
    (fun _ => rfl) (fun _ => (by decide : isRetryableG "timeout" = true))

/-- C5: every JSON-parse failure of `_parseJson` carries the message
"Invalid JSON from AI", which the pipeline's `_isRetryableError`
classifies as retryable (via its "invalid json" substring check), so a
phase whose response fails to parse once and succeeds on the next attempt
is retried rather than failing. -/
theorem c5_parse_error_retried :
    (∀ s : List Char, jsonParse s = none →
        parseJsonA s = .error "Invalid JSON from AI") ∧
    isRetryable2 "Invalid JSON from AI" = true ∧
    (∀ (op : Nat → Except String J) (v : J),
        op 1 = .error "Invalid JSON from AI" → op 2 = .ok v →
        retryWithBackoff2 op = ⟨.ok v, 2, [1500]⟩) := by
  refine ⟨?_, by decide, ?_⟩
  · intro s h
    unfold parseJsonA
    rw [h]
  · intro op v h1 h2
    have hr : isRetryable2 "Invalid JSON from AI" = true := by decide
    simp [retryWithBackoff2, retryLoop2, h1, h2, hr]

/-- Witness for C5 at a concrete unparseable text and a concrete
fail-once operation. -/
theorem c5_witness :
    parseJsonA (strL "oops") = .error "Invalid JSON from AI" ∧
    retryWithBackoff2
        (fun n => if n = 1 then .error "Invalid JSON from AI" else .ok J.null) =
      ⟨.ok J.null, 2, [1500]⟩ :=
  ⟨c5_parse_error_retried.1 (strL "oops") rfl,
   c5_parse_error_retried.2.2 _ J.null rfl rfl⟩

/-- Counterexample to C2: the upstream partial output
`{pricing: {marketAnalysis: {}}}` is truthy, so `_mapToListingPayload`
passes the empty `marketAnalysis` object through wholesale and the
documented field `pricing.marketAnalysis.soldListingsAnalyzed` (default 0)
is absent (`undefined`) in the produced payload. -/
theorem c2_counterexample :
    gf (gf (gf (mapToListingPayload
          (.obj [("pricing", .obj [("marketAnalysis", .obj [])])]) .undefined "ts")
        "pricing") "marketAnalysis") "soldListingsAnalyzed" = .undefined := rfl

/-- C2 (amended): the normalizer's output always carries the full
documented top-level key list, and on the empty object `{}` every
documented field is present and equal to its documented default (brand
"Unbranded", condition grade "Used", currency "USD", pricing
confidenceScore 0.5, weight confidenceLevel "low", ...); however the
composite objects marketAnalysis and promotedListings are defaulted only
as a whole, so a truthy partial upstream object for them is passed
through with its missing subfields left absent. -/
theorem c2_amended_total_defaults :
    (∀ (d pt : J) (t : String),
        topKeys (mapToListingPayload d pt t) =
          ["productIdentification", "title", "subtitle", "description",
           "condition", "weight", "dimensions", "pricing", "shipping",
           "itemSpecifics", "seoOptimization", "listingRecommendations",
           "qualityChecks", "complianceFlags", "legalDisclaimers",
           "metadata"]) ∧
    mapToListingPayload (.obj []) .undefined "ts" =
      .obj
        [("productIdentification", .obj
            [("brand", .str "Unbranded"), ("model", .str "Unknown"),
             ("category", .str "Other"), ("upc", .null), ("mpn", .null)]),
         ("title", .str "Untitled Item"),
         ("subtitle", .null),
         ("description", .obj
            [("plainText", .str "No description available"),
             ("structure", .null)]),
         ("condition", .obj
            [("grade", .str "Used"), ("numericScore", .null),
             ("description", .null), ("flaws", .arr []),
             ("userOverride", .null)]),
         ("weight", .obj
            [("estimatedLbs", .num 0 0), ("estimatedOz", .num 0 0),
             ("estimatedKg", .num 0 0), ("confidenceLevel", .str "low"),
             ("requiresManualVerification", .bool true),
             ("rationale", .str "Weight estimation unavailable")]),
         ("dimensions", .obj
            [("length", .null), ("width", .null), ("height", .null),
             ("unit", .str "inches"), ("confidenceLevel", .str "low")]),
         ("pricing", .obj
            [("suggestedPrice", .num 0 0),
             ("priceRange", .obj [("min", .num 0 0), ("max", .num 0 0)]),
             ("currency", .str "USD"),
             ("confidenceScore", .num 5 (-1)),
             ("rationale", .null),
             ("marketAnalysis", .obj
                [("soldListingsAnalyzed", .num 0 0),
                 ("averageSoldPrice", .null),
                 ("priceDistribution", .str "No market data available"),
                 ("competitivePosition", .str "Unknown")]),
             ("strategyRecommendation", .obj
                [("listingFormat", .str "Fixed Price"),
                 ("auctionStartPrice", .null),
                 ("bestOfferEnabled", .bool true),
                 ("bestOfferAutoAccept", .null),
                 ("bestOfferAutoDecline", .null),
                 ("shippingStrategy", .str "Buyer Pays"),
                 ("reasoning", .str "Default strategy")])]),
         ("shipping", .obj
            [("recommendedService", .str "USPS Priority Mail"),
             ("estimatedCost", .num 0 0),
             ("handlingTime", .str "1 business day"),
             ("packageType", .str "Box"),
             ("requiresSignature", .bool false),
             ("fragile", .bool false),
             ("sellerTemplateMatch", .null)]),
         ("itemSpecifics", .obj []),
         ("seoOptimization", .obj
            [("primaryKeywords", .arr []), ("secondaryKeywords", .arr []),
             ("longtailKeywords", .arr []), ("competitorKeywords", .arr []),
             ("searchVolume", .null)]),
         ("listingRecommendations", .obj
            [("bestOfferEnabled", .bool true),
             ("internationalShipping", .bool false),
             ("returnsAccepted", .bool true),
             ("returnPeriod", .str "30 days"),
             ("returnShippingPaidBy", .str "Buyer"),
             ("promotedListings", .obj
                [("recommended", .bool false),
                 ("suggestedAdRate", .str "5%"),
                 ("reasoning", .null)])]),
         ("qualityChecks", .obj
            [("imageQuality", .str "unknown"),
             ("imageQualityNotes", .null),
             ("informationCompleteness", .num 5 (-1)),
             ("missingInformation", .arr []),
             ("recommendedAdditionalPhotos", .arr [])]),
         ("complianceFlags", .obj
            [("brandAuthenticity", .str "uncertain"),
             ("prohibitedItems", .bool false),
             ("restrictedCategories", .bool false),
             ("requiresAdditionalDisclosures", .bool false),
             ("warnings", .arr [])]),
         ("legalDisclaimers", .obj
            [("pricing", .str "AI-suggested prices are estimates based on market analysis. Seller is solely responsible for final pricing decisions. Actual market value may vary."),
             ("condition", .str "AI condition assessment is preliminary. Seller must verify and accurately represent item condition in final listing."),
             ("accuracy", .str "All AI-generated content is advisory. Seller is responsible for ensuring listing accuracy and compliance with eBay policies."),
             ("liability", .str "AI suggestions do not guarantee sales performance or listing acceptance by eBay.")]),
         ("metadata", .obj
            [("generatedAt", .str "ts"),
             ("modelVersion", .str "gemini-2.5-flash"),
             ("processingTime", .null)])] :=
  ⟨fun _ _ _ => rfl, rfl⟩

/-- C10: `_mapToListingPayload` defaults `||`-guarded fields on every
falsy upstream value: a numeric 0 for `pricing.confidenceScore` becomes
0.5, a `condition.numericScore` of 0 becomes null, and a
`qualityChecks.informationCompleteness` of 0 becomes 0.5; the
`??`-guarded boolean fields (`weight.requiresManualVerification`,
`shipping.requiresSignature`, both `bestOfferEnabled` flags) preserve an
explicit `false`. -/
theorem c10_falsy_defaulting (v : J) (hv : truthy v = false) :
    gf (gf (mapToListingPayload
        (.obj
          [("pricing", .obj
              [("confidenceScore", v),
               ("strategyRecommendation", .obj [("bestOfferEnabled", .bool false)])]),
           ("condition", .obj [("numericScore", v)]),
           ("qualityChecks", .obj [("informationCompleteness", v)]),
           ("weight", .obj [("requiresManualVerification", .bool false)]),
           ("shipping", .obj [("requiresSignature", .bool false)]),
           ("listingRecommendations", .obj [("bestOfferEnabled", .bool false)])])
        .undefined "ts") "pricing") "confidenceScore" = .num 5 (-1) ∧
    gf (gf (mapToListingPayload
        (.obj
          [("pricing", .obj
              [("confidenceScore", v),
               ("strategyRecommendation", .obj [("bestOfferEnabled", .bool false)])]),
           ("condition", .obj [("numericScore", v)]),
           ("qualityChecks", .obj [("informationCompleteness", v)]),
           ("weight", .obj [("requiresManualVerification", .bool false)]),
           ("shipping", .obj [("requiresSignature", .bool false)]),
           ("listingRecommendations", .obj [("bestOfferEnabled", .bool false)])])
        .undefined "ts") "condition") "numericScore" = .null ∧
    gf (gf (mapToListingPayload
        (.obj
          [("pricing", .obj
              [("confidenceScore", v),
               ("strategyRecommendation", .obj [("bestOfferEnabled", .bool false)])]),
           ("condition", .obj [("numericScore", v)]),
           ("qualityChecks", .obj [("informationCompleteness", v)]),
           ("weight", .obj [("requiresManualVerification", .bool false)]),
           ("shipping", .obj [("requiresSignature", .bool false)]),
           ("listingRecommendations", .obj [("bestOfferEnabled", .bool false)])])
        .undefined "ts") "qualityChecks") "informationCompleteness" = .num 5 (-1) ∧
    gf (gf (mapToListingPayload
        (.obj
          [("pricing", .obj
              [("confidenceScore", v),
               ("strategyRecommendation", .obj [("bestOfferEnabled", .bool false)])]),
           ("condition", .obj [("numericScore", v)]),
           ("qualityChecks", .obj [("informationCompleteness", v)]),
           ("weight", .obj [("requiresManualVerification", .bool false)]),
           ("shipping", .obj [("requiresSignature", .bool false)]),
           ("listingRecommendations", .obj [("bestOfferEnabled", .bool false)])])
        .undefined "ts") "weight") "requiresManualVerification" = .bool false ∧
    gf (gf (mapToListingPayload
        (.obj
          [("pricing", .obj
              [("confidenceScore", v),
               ("strategyRecommendation", .obj [("bestOfferEnabled", .bool false)])]),
           ("condition", .obj [("numericScore", v)]),
           ("qualityChecks", .obj [("informationCompleteness", v)]),
           ("weight", .obj [("requiresManualVerification", .bool false)]),
           ("shipping", .obj [("requiresSignature", .bool false)]),
           ("listingRecommendations", .obj [("bestOfferEnabled", .bool false)])])
        .undefined "ts") "shipping") "requiresSignature" = .bool false ∧
    gf (gf (mapToListingPayload
        (.obj
          [("pricing", .obj
              [("confidenceScore", v),
               ("strategyRecommendation", .obj [("bestOfferEnabled", .bool false)])]),
           ("condition", .obj [("numericScore", v)]),
           ("qualityChecks", .obj [("informationCompleteness", v)]),
           ("weight", .obj [("requiresManualVerification", .bool false)]),
           ("shipping", .obj [("requiresSignature", .bool false)]),
           ("listingRecommendations", .obj [("bestOfferEnabled", .bool false)])])
        .undefined "ts") "listingRecommendations") "bestOfferEnabled" = .bool false ∧
    gf (gf (gf (mapToListingPayload
        (.obj
          [("pricing", .obj
              [("confidenceScore", v),
               ("strategyRecommendation", .obj [("bestOfferEnabled", .bool false)])]),
           ("condition", .obj [("numericScore", v)]),
           ("qualityChecks", .obj [("informationCompleteness", v)]),
           ("weight", .obj [("requiresManualVerification", .bool false)]),
           ("shipping", .obj [("requiresSignature", .bool false)]),
           ("listingRecommendations", .obj [("bestOfferEnabled", .bool false)])])
        .undefined "ts") "pricing") "strategyRecommendation") "bestOfferEnabled" =
      .bool false := by
  refine ⟨?_, ?_, ?_, ?_, ?_, ?_, ?_⟩
  · show jsOr v (.num 5 (-1)) = .num 5 (-1)
    simp [jsOr, hv]
  · show jsOr v .null = .null
    simp [jsOr, hv]
  · show jsOr v (.num 5 (-1)) = .num 5 (-1)
    simp [jsOr, hv]
  · rfl
  · rfl
  · rfl
  · rfl

/-- Witness for C10 at the falsy value `0`. -/
theorem c10_witness :
    truthy (J.num 0 0) = false ∧
    gf (gf (mapToListingPayload
        (.obj
          [("pricing", .obj
              [("confidenceScore", J.num 0 0),
               ("strategyRecommendation", .obj [("bestOfferEnabled", .bool false)])]),
           ("condition", .obj [("numericScore", J.num 0 0)]),
           ("qualityChecks", .obj [("informationCompleteness", J.num 0 0)]),
           ("weight", .obj [("requiresManualVerification", .bool false)]),
           ("shipping", .obj [("requiresSignature", .bool false)]),
           ("listingRecommendations", .obj [("bestOfferEnabled", .bool false)])])
        .undefined "ts") "pricing") "confidenceScore" = .num 5 (-1) :=
  ⟨rfl, (c10_falsy_defaulting (J.num 0 0) rfl).1⟩

/-- Counterexample to C6: an item-specifics value that is the literal
string `"null"` is truthy and not `"string"`, so the Brand/Model/Condition
refill skips it, and the deletion pass then removes it: `{"Brand":"null"}`
leaves the 5-phase variant's map without a Brand, `{"Brand":"null",
"Model":"null","Condition":"null"}` leaves that variant's map entirely
empty, and `{"Brand":"null","Color":"Red"}` leaves even the condensed
variant's non-empty map without a Brand. -/
theorem c6_counterexample :
    gf (gf (fixSpecsA (.obj [("itemSpecifics", .obj [("Brand", .str "null")])])
        (.str "Unbranded") (.str "N/A") (.str "Used")) "itemSpecifics")
      "Brand" = .undefined ∧
    gf (fixSpecsA
        (.obj [("itemSpecifics", .obj
            [("Brand", .str "null"), ("Model", .str "null"),
             ("Condition", .str "null")])])
        (.str "Unbranded") (.str "N/A") (.str "Used")) "itemSpecifics" =
      .obj [] ∧
    gf (gf (fixSpecs2
        (.obj [("itemSpecifics", .obj
            [("Brand", .str "null"), ("Color", .str "Red")])])
        (.str "Unbranded") (.str "Unknown") (.obj [("grade", .str "Used")]))
      "itemSpecifics") "Brand" = .undefined :=
  ⟨rfl, rfl, rfl⟩

/-- C6 (amended): placeholder entries (`null`, `"null"`, `"string"`, `""`,
plus `undefined` in the condensed variant) are deleted and no such value
survives; Brand/Model/Condition receive their fallback only when falsy or
the literal `"string"`, so the cited example
`{"Brand":"string","Model":null}` does normalize to the fallback triad in
both variants — but a literal `"null"` escapes the refill and is deleted,
so the triad is not guaranteed and the 5-phase variant's map can end up
empty; only the condensed variant restores the triad when the map ends up
empty. -/
theorem c6_amended_placeholder_cleanup :
    gf (fixSpecsA
        (.obj [("itemSpecifics", .obj
            [("Brand", .str "string"), ("Model", .null)])])
        (.str "Unbranded") (.str "N/A") (.str "Used")) "itemSpecifics" =
      .obj [("Brand", .str "Unbranded"), ("Model", .str "N/A"),
            ("Condition", .str "Used")] ∧
    gf (fixSpecs2
        (.obj [("itemSpecifics", .obj
            [("Brand", .str "string"), ("Model", .null)])])
        (.str "Unbranded") (.str "Unknown") (.obj [("grade", .str "Used")]))
      "itemSpecifics" =
      .obj [("Brand", .str "Unbranded"), ("Model", .str "Unknown"),
            ("Condition", .str "Used")] ∧
    gf (fixSpecs2
        (.obj [("itemSpecifics", .obj
            [("Brand", .str "null"), ("Model", .str "null"),
             ("Condition", .str "null")])])
        (.str "Unbranded") (.str "Unknown") (.obj [("grade", .str "Used")]))
      "itemSpecifics" =
      .obj [("Brand", .str "Unbranded"), ("Model", .str "Unknown"),
            ("Condition", .str "Used")] ∧
    (∀ (specs b m c : J),
        ∀ kv ∈ objFields (fixSpecsCoreA specs b m c), badSpecA kv.2 = false) := by
  have hdel : ∀ (v : J) (kv : String × J),
      kv ∈ objFields (deleteBadA v) → badSpecA kv.2 = false := by
    intro v kv hkv
    cases v with
    | obj kvs =>
      simp only [deleteBadA, objFields] at hkv
      have hmem := List.of_mem_filter hkv
      simpa using hmem
    | undefined => cases hkv
    | null => cases hkv
    | bool bb => cases hkv
    | num mm ee => cases hkv
    | str ss => cases hkv
    | arr xs => cases hkv
  exact ⟨rfl, rfl, rfl, fun specs b m c kv hkv => hdel _ kv hkv⟩

/-- Witness for C6 (amended): a surviving entry of a concrete cleanup run
is not a placeholder. -/
theorem c6_witness : badSpecA (J.str "Red") = false :=
  c6_amended_placeholder_cleanup.2.2.2 (.obj [("Color", .str "Red")])
    (.str "B") (.str "M") (.str "C") ("Color", .str "Red")
    (List.mem_cons_self _ _)

/-- Counterexample to C7: not every no-`{` input makes "the sanitizer"
throw — the gemini.service.js implementation `_cleanJsonResponse` has no
throw path at all and returns the cleaned text (`"hello"` comes back
unchanged), and even the ai.agentic `_cleanJson` returns `""` for the
empty input because of its falsy-input guard. -/
theorem c7_counterexample :
    cleanJsonResponseG (strL "hello") = strL "hello" ∧
    cleanJsonA [] = .ok [] :=
  ⟨rfl, rfl⟩

/-- C7 (amended): for every input containing no `{`, the ai.agentic
`_cleanJson` throws the no-JSON-found error provided the input is
non-empty (the empty input returns `""`), while
`GeminiService._cleanJsonResponse` never throws and returns the
fence-stripped trimmed text instead. -/
theorem c7_amended_no_json (s : List Char) (h : '{' ∉ s) :
    (s ≠ [] → cleanJsonA s = .error .noJsonFound) ∧
    cleanJsonResponseG s = trimL (cleanCore s) := by
  have hf : firstIdxOf '{' (cleanCore s) = none :=
    firstIdxOf_eq_none_iff.mpr (fun hm => h (mem_of_mem_cleanCore hm))
  constructor
  · intro hs
    unfold cleanJsonA
    rw [cleanRouteA_eq_noJson hs hf]
  · by_cases hs : s = []
    · subst hs; rfl
    · unfold cleanJsonResponseG
      rw [if_neg hs, hf]

/-- Witness for C7 (amended) at a concrete brace-free input. -/
theorem c7_witness :
    cleanJsonA (strL "no json here") = .error .noJsonFound ∧
    cleanJsonResponseG (strL "no json here") =
      trimL (cleanCore (strL "no json here")) :=
  ⟨(c7_amended_no_json (strL "no json here") (by decide)).1 (by decide),
   (c7_amended_no_json (strL "no json here") (by decide)).2⟩

/-- C8: for a text that is already a bare JSON object (first character
`{`, last character `}`), sanitizing twice equals sanitizing once, in
both sanitizer implementations (the single pass reduces such a text to
its backtick-fence-free form, which is a fixed point of the sanitizer). -/
theorem c8_sanitizer_idempotent (s : List Char)
    (hh : s.head? = some '{') (hl : s.getLast? = some '}') :
    (cleanJsonA s >>= cleanJsonA) = cleanJsonA s ∧
    cleanJsonResponseG (cleanJsonResponseG s) = cleanJsonResponseG s := by
  obtain ⟨hA, hG⟩ := cleanA_of_bare hh hl
  have h4 : (removeTicks s).head? = some '{' := removeTicks_head? hh (by decide)
  have h5 : (removeTicks s).getLast? = some '}' :=
    removeTicks_getLast? (by decide) hl
  obtain ⟨hA2, hG2⟩ := cleanA_of_bare h4 h5
  constructor
  · rw [hA]
    show cleanJsonA (removeTicks s) = Except.ok (removeTicks s)
    rw [hA2, removeTicks_idem]
  · rw [hG, hG2, removeTicks_idem]

/-- Witness for C8 at the bare object text. -/
theorem c8_witness :
    (cleanJsonA (strL "\x7b\x22a\x22:1\x7d") >>= cleanJsonA) =
      cleanJsonA (strL "\x7b\x22a\x22:1\x7d") ∧
    cleanJsonResponseG (cleanJsonResponseG (strL "\x7b\x22a\x22:1\x7d")) =
      cleanJsonResponseG (strL "\x7b\x22a\x22:1\x7d") :=
  c8_sanitizer_idempotent (strL "\x7b\x22a\x22:1\x7d") rfl (by decide)

/-- C9: structural truncation recovery runs exactly when the
fence-stripped text contains a `{` with no `}` anywhere after the first
`{`; whenever some `}` follows the first `{` the text is sliced, not
repaired, so the mid-structure-truncated `{"a":{"b":1}` (outer brace
missing but an inner `}` present) passes through unrepaired and fails
JSON.parse with the "Invalid JSON from AI" error instead of being
recovered. -/
theorem c9_recovery_exactly_when_no_closing_brace :
    (∀ s : List Char, s ≠ [] →
        ((cleanRouteA s).1 = SanRoute.recovered ↔
          ∃ pre post,
            cleanCore s = pre ++ '{' :: post ∧ '{' ∉ pre ∧ '}' ∉ post)) ∧
    cleanJsonA (strL "\x7b\x22a\x22:\x7b\x22b\x22:1\x7d") =
      .ok (strL "\x7b\x22a\x22:\x7b\x22b\x22:1\x7d") ∧
    jsonParse (strL "\x7b\x22a\x22:\x7b\x22b\x22:1\x7d") = none ∧
    parseJsonA (strL "\x7b\x22a\x22:\x7b\x22b\x22:1\x7d") =
      .error "Invalid JSON from AI" :=
  ⟨fun _ hs => cleanRouteA_recovered_iff hs, rfl, rfl, rfl⟩

/-- Witness for C9: on a concrete prose-prefixed truncated text the
recovery branch is taken. -/
theorem c9_witness :
    (cleanRouteA (strL "abc \x7b\x22x\x22: [1")).1 = SanRoute.recovered :=
  (c9_recovery_exactly_when_no_closing_brace.1
      (strL "abc \x7b\x22x\x22: [1") (by decide)).mpr
    ⟨strL "abc ", strL "\x22x\x22: [1", by decide, by decide, by decide⟩
